import Mathlib

/-
Verification of the two relay scripts of jetson-gpio-setup-relay-modules
(src/examples/relay_control.py and src/examples/relay_switch.py) against
their natural-language specification.

The scripts are shallowly embedded as pure Lean functions producing traces
of GPIO driver events.  Blocking sleeps and the possibility of a user
interrupt (KeyboardInterrupt) arriving during a sleep are modelled by an
interrupt budget: the budget counts how many sleeps complete before the
interrupt strikes during the next one.  Potentially infinite loops (the
cycle loop with cycles = 0, and the hold loop of the one-shot script with
hold time 0) are modelled with explicit fuel; a result of none means the
run did not terminate within the given fuel.
-/

namespace RelayModules

/-- Physical signal level of the GPIO pin: GPIO.HIGH or GPIO.LOW. -/
inductive Level where
  | high
  | low
deriving DecidableEq, Repr

/-- Complement of a physical level, as used by the spec: High and Low swap. -/
def Level.complement : Level → Level
  | .high => .low
  | .low => .high

/-- Logical relay state as seen by the user: on or off. -/
inductive LogicalState where
  | stOn
  | stOff
deriving DecidableEq, Repr

/-- Relay polarity configuration: active-high or active-low. -/
inductive Polarity where
  | activeHigh
  | activeLow
deriving DecidableEq, Repr

/-- The boolean form of the polarity, matching the args.active_high flag of
both scripts. -/
def Polarity.isHigh : Polarity → Bool
  | .activeHigh => true
  | .activeLow => false

/-- Embeds relay_control.py lines 46 to 51: the RELAY_ON binding chosen from
the active_high flag (GPIO.HIGH when active high, GPIO.LOW otherwise). -/
def control_RELAY_ON (active_high : Bool) : Level :=
  if active_high then Level.high else Level.low

/-- Embeds relay_control.py lines 46 to 51: the RELAY_OFF binding chosen from
the active_high flag (GPIO.LOW when active high, GPIO.HIGH otherwise). -/
def control_RELAY_OFF (active_high : Bool) : Level :=
  if active_high then Level.low else Level.high

/-- Embeds relay_switch.py lines 45 to 50: the RELAY_ON binding chosen from
the active_high flag. -/
def switch_RELAY_ON (active_high : Bool) : Level :=
  if active_high then Level.high else Level.low

/-- Embeds relay_switch.py lines 45 to 50: the RELAY_OFF binding chosen from
the active_high flag. -/
def switch_RELAY_OFF (active_high : Bool) : Level :=
  if active_high then Level.low else Level.high

/-- The level relay_control.py writes for a given logical state: RELAY_ON for
state on, RELAY_OFF for state off, as selected at lines 46 to 51. -/
def controlResolve (s : LogicalState) (active_high : Bool) : Level :=
  match s with
  | .stOn => control_RELAY_ON active_high
  | .stOff => control_RELAY_OFF active_high

/-- The level relay_switch.py writes for a given logical state: RELAY_ON for
state on, RELAY_OFF for state off, as selected at lines 45 to 50. -/
def switchResolve (s : LogicalState) (active_high : Bool) : Level :=
  match s with
  | .stOn => switch_RELAY_ON active_high
  | .stOff => switch_RELAY_OFF active_high

/-- The resolve contract written from the words of the spec, for the
refinement comparison of section 4.1: On maps to High if ActiveHigh else Low,
and Off maps to the complement. -/
def resolveSpec (s : LogicalState) (p : Polarity) : Level :=
  match s, p with
  | .stOn, .activeHigh => Level.high
  | .stOn, .activeLow => Level.low
  | .stOff, .activeHigh => Level.low
  | .stOff, .activeLow => Level.high

/-- The single relay pin both scripts use: Jetson board pin 7. -/
def relay_pin : Nat := 7

/-- Observable GPIO driver events plus blocking sleeps, in program order. -/
inductive GpioEvent where
  | setModeBoard
  | setupOut (pin : Nat) (initial : Option Level)
  | output (pin : Nat) (level : Level)
  | sleep (seconds : ℚ)
  | cleanup
deriving DecidableEq, Repr

/-- True exactly on sleep events. -/
def GpioEvent.isSleep : GpioEvent → Bool
  | .sleep _ => true
  | _ => false

/-- True exactly on output (pin write) events. -/
def GpioEvent.isOutput : GpioEvent → Bool
  | .output _ _ => true
  | _ => false

/-- The level carried by an output event, none on every other event. -/
def outputLevel? : GpioEvent → Option Level
  | .output _ l => some l
  | _ => none

/-- The level of the last output event of a trace, if any. -/
def lastOutputLevel (es : List GpioEvent) : Option Level :=
  es.reverse.findSome? outputLevel?

/-- The level of the first output event of a trace, if any. -/
def firstOutputLevel (es : List GpioEvent) : Option Level :=
  es.findSome? outputLevel?

/-- Runs a straight-line block of events under an interrupt budget.  The
budget some j means the interrupt strikes during the (j+1)-st sleep the
process performs from now on; none means no interrupt ever arrives.  The
result is the list of events that actually complete, paired with none when
the block was cut short by the interrupt (the aborted sleep is not recorded),
or some with the remaining budget when the whole block completed. -/
def runEvents : List GpioEvent → Option Nat → List GpioEvent × Option (Option Nat)
  | [], intr => ([], some intr)
  | e :: rest, intr =>
    match e, intr with
    | .sleep _, some 0 => ([], none)
    | .sleep t, some (j + 1) =>
      let (es, r) := runEvents rest (some j)
      (.sleep t :: es, r)
    | .sleep t, none =>
      let (es, r) := runEvents rest none
      (.sleep t :: es, r)
    | e, intr =>
      let (es, r) := runEvents rest intr
      (e :: es, r)

/-- Embeds the loop guard of relay_control.py line 70:
args.cycles == 0 or cycle_count < args.cycles. -/
def loopCondition (cycles : Int) (cycle_count : Nat) : Bool :=
  cycles == 0 || decide ((cycle_count : Int) < cycles)

/-- Embeds one iteration body of the try loop of relay_control.py lines 70 to
80: write RELAY_ON, sleep on_time, write RELAY_OFF, sleep off_time. -/
def cycleBody (active_high : Bool) (on_time off_time : ℚ) : List GpioEvent :=
  [.output relay_pin (control_RELAY_ON active_high), .sleep on_time,
   .output relay_pin (control_RELAY_OFF active_high), .sleep off_time]

/-- Embeds the try loop of relay_control.py lines 69 to 83, with the counter
update of lines 82 and 83 (the counter advances only when cycles > 0).  Fuel
bounds the number of iterations; none means the loop did not finish within
the fuel.  The boolean of the result is true when a KeyboardInterrupt ended
the loop. -/
def controlLoop (active_high : Bool) (on_time off_time : ℚ) (cycles : Int) :
    Nat → Option Nat → Nat → Option (List GpioEvent × Bool)
  | _, _, 0 => none
  | cycle_count, intr, fuel + 1 =>
    if loopCondition cycles cycle_count then
      match runEvents (cycleBody active_high on_time off_time) intr with
      | (es, none) => some (es, true)
      | (es, some intr2) =>
        match controlLoop active_high on_time off_time cycles
            (if cycles > 0 then cycle_count + 1 else cycle_count) intr2 fuel with
        | none => none
        | some (es2, b) => some (es ++ es2, b)
    else
      some ([], false)

/-- Parsed argument record of relay_control.py (lines 31 to 43). -/
structure ControlArgs where
  on_time : ℚ
  off_time : ℚ
  cycles : Int
  initialOn : Bool
  active_high : Bool
deriving DecidableEq, Repr

/-- Embeds the setup phase of relay_control.py lines 54 to 58: GPIO.setmode
then GPIO.setup with the initial level resolved from args.initial_state. -/
def controlSetupEvents (a : ControlArgs) : List GpioEvent :=
  [.setModeBoard,
   .setupOut relay_pin
     (some (if a.initialOn then control_RELAY_ON a.active_high
            else control_RELAY_OFF a.active_high))]

/-- A full run of the main function of relay_control.py after argument
parsing: setup, the try loop, then the finally block of lines 88 to 92 which
writes RELAY_OFF and calls GPIO.cleanup.  A KeyboardInterrupt is caught at
line 85, so both exit paths fall through to the finally block and the process
exits with status 0. -/
def controlRun (a : ControlArgs) (intr : Option Nat) (fuel : Nat) :
    Option (List GpioEvent × Nat) :=
  match controlLoop a.active_high a.on_time a.off_time a.cycles 0 intr fuel with
  | none => none
  | some (es, _) =>
    some (controlSetupEvents a ++ es ++
      [.output relay_pin (control_RELAY_OFF a.active_high), .cleanup], 0)

/-- Parsed argument record of relay_switch.py (lines 32 to 42). -/
structure SwitchArgs where
  stateOn : Bool
  active_high : Bool
  hold_time : ℚ
deriving DecidableEq, Repr

/-- The level relay_switch.py writes at line 57 or 61 for the requested
state. -/
def switchLevel (a : SwitchArgs) : Level :=
  if a.stateOn then switch_RELAY_ON a.active_high else switch_RELAY_OFF a.active_high

/-- Embeds the indefinite hold loop of relay_switch.py lines 68 to 70:
while True, sleep one second.  Fuel bounds iterations; the boolean of the
result is true when a KeyboardInterrupt ended the loop (the only way it
ends). -/
def switchHoldLoop : Option Nat → Nat → Option (List GpioEvent × Bool)
  | _, 0 => none
  | intr, fuel + 1 =>
    match intr with
    | some 0 => some ([], true)
    | some (j + 1) =>
      match switchHoldLoop (some j) fuel with
      | none => none
      | some (es, b) => some (.sleep 1 :: es, b)
    | none =>
      match switchHoldLoop none fuel with
      | none => none
      | some (es, b) => some (.sleep 1 :: es, b)

/-- Embeds the try block of relay_switch.py lines 56 to 70: one write of the
resolved level, then sleep hold_time if hold_time > 0, else the indefinite
hold loop if hold_time == 0, else nothing.  The boolean of the result is true
when a KeyboardInterrupt ended the block. -/
def switchTry (a : SwitchArgs) (intr : Option Nat) (fuel : Nat) :
    Option (List GpioEvent × Bool) :=
  if a.hold_time > 0 then
    some (.output relay_pin (switchLevel a) :: (runEvents [.sleep a.hold_time] intr).1,
          ((runEvents [.sleep a.hold_time] intr).2).isNone)
  else if a.hold_time = 0 then
    match switchHoldLoop intr fuel with
    | none => none
    | some (es, b) => some (.output relay_pin (switchLevel a) :: es, b)
  else
    some ([.output relay_pin (switchLevel a)], false)

/-- A full run of the main function of relay_switch.py after argument
parsing: GPIO.setmode and GPIO.setup (lines 53 and 54, no initial level),
the try block, then the finally block of lines 75 to 78 which only calls
GPIO.cleanup.  A KeyboardInterrupt is caught at line 72, so both exit paths
fall through to the finally block and the process exits with status 0. -/
def switchRun (a : SwitchArgs) (intr : Option Nat) (fuel : Nat) :
    Option (List GpioEvent × Nat) :=
  match switchTry a intr fuel with
  | none => none
  | some (es, _) =>
    some ([.setModeBoard, .setupOut relay_pin none] ++ es ++ [.cleanup], 0)

/-- True exactly when a string is one of the argparse choices on and off,
used by the state positional of relay_switch.py line 33 and the
initial-state flag of relay_control.py lines 35 and 36. -/
def validState (s : String) : Bool :=
  s == "on" || s == "off"

/-- Lexed command-line tokens for relay_switch.py: its positional state
argument, the flags declared at lines 33 to 40, and anything else as an
unknown flag. -/
inductive SwTok where
  | positional (s : String)
  | flagActiveHigh
  | flagActiveLow
  | flagHoldTime (v : ℚ)
  | unknownFlag (s : String)
deriving DecidableEq, Repr

/-- Argument validation of relay_switch.py as performed by argparse over the
declarations of lines 32 to 43: a single required positional constrained to
the choices on and off, active-high and active-low toggling the same
boolean, hold-time carrying a rational, defaults active_high true and
hold_time 0; an unknown flag, a bad state value, a missing or duplicated
positional all reject. -/
def parseSwitch : List SwTok → Option String → Bool → ℚ → Option SwitchArgs
  | [], st, ah, ht =>
    match st with
    | some s => some ⟨s == "on", ah, ht⟩
    | none => none
  | t :: rest, st, ah, ht =>
    match t with
    | .unknownFlag _ => none
    | .positional s =>
      match st with
      | some _ => none
      | none => if validState s then parseSwitch rest (some s) ah ht else none
    | .flagActiveHigh => parseSwitch rest st true ht
    | .flagActiveLow => parseSwitch rest st false ht
    | .flagHoldTime v => parseSwitch rest st ah v

/-- The whole relay_switch.py process: parse_args at line 43 runs before any
GPIO call, and on rejection argparse exits with the usage status 2 having
produced no GPIO events; otherwise the run proceeds as switchRun. -/
def switchProcess (argv : List SwTok) (intr : Option Nat) (fuel : Nat) :
    Option (List GpioEvent × Nat) :=
  match parseSwitch argv none true 0 with
  | none => some ([], 2)
  | some a => switchRun a intr fuel

/-- Lexed command-line tokens for relay_control.py: the flags declared at
lines 31 to 41, a stray positional (the script declares none, so argparse
rejects it), and anything else as an unknown flag. -/
inductive CtlTok where
  | flagOnTime (v : ℚ)
  | flagOffTime (v : ℚ)
  | flagCycles (v : Int)
  | flagInitialState (s : String)
  | flagActiveHigh
  | flagActiveLow
  | unknownFlag (s : String)
  | positional (s : String)
deriving DecidableEq, Repr

/-- Argument validation of relay_control.py as performed by argparse over the
declarations of lines 31 to 41: all flags optional with defaults on_time 2,
off_time 2, cycles 0, initial_state off, active_high true; initial-state is
constrained to the choices on and off; an unknown flag or any positional
rejects. -/
def parseControl : List CtlTok → ControlArgs → Option ControlArgs
  | [], a => some a
  | t :: rest, a =>
    match t with
    | .unknownFlag _ => none
    | .positional _ => none
    | .flagOnTime v => parseControl rest { a with on_time := v }
    | .flagOffTime v => parseControl rest { a with off_time := v }
    | .flagCycles v => parseControl rest { a with cycles := v }
    | .flagInitialState s =>
      if validState s then parseControl rest { a with initialOn := s == "on" }
      else none
    | .flagActiveHigh => parseControl rest { a with active_high := true }
    | .flagActiveLow => parseControl rest { a with active_high := false }

/-- The default argument record of relay_control.py before any flag is
applied. -/
def controlDefaults : ControlArgs :=
  { on_time := 2, off_time := 2, cycles := 0, initialOn := false,
    active_high := true }

/-- The whole relay_control.py process: parse_args at line 43 runs before any
GPIO call, and on rejection argparse exits with the usage status 2 having
produced no GPIO events; otherwise the run proceeds as controlRun. -/
def controlProcess (argv : List CtlTok) (intr : Option Nat) (fuel : Nat) :
    Option (List GpioEvent × Nat) :=
  match parseControl argv controlDefaults with
  | none => some ([], 2)
  | some a => controlRun a intr fuel

/-! Helper lemmas. -/

/-- With no interrupt pending, a straight-line block runs in full. -/
theorem runEvents_none (es : List GpioEvent) :
    runEvents es none = (es, some none) := by
  induction es with
  | nil => rfl
  | cons e rest ih => cases e <;> simp [runEvents, ih]

/-- Every event a straight-line block emits comes from the block itself. -/
theorem runEvents_mem {es : List GpioEvent} {intr : Option Nat} {e : GpioEvent}
    (h : e ∈ (runEvents es intr).1) : e ∈ es := by
  induction es generalizing intr with
  | nil => simp [runEvents] at h
  | cons e0 rest ih =>
    cases e0 with
    | sleep t =>
      match intr with
      | some 0 => simp [runEvents] at h
      | some (j + 1) =>
        simp only [runEvents] at h
        rcases List.mem_cons.mp h with h | h
        · simp [h]
        · exact List.mem_cons_of_mem _ (ih h)
      | none =>
        simp only [runEvents] at h
        rcases List.mem_cons.mp h with h | h
        · simp [h]
        · exact List.mem_cons_of_mem _ (ih h)
    | setModeBoard =>
      simp only [runEvents] at h
      rcases List.mem_cons.mp h with h | h
      · simp [h]
      · exact List.mem_cons_of_mem _ (ih h)
    | setupOut p i =>
      simp only [runEvents] at h
      rcases List.mem_cons.mp h with h | h
      · simp [h]
      · exact List.mem_cons_of_mem _ (ih h)
    | output p l =>
      simp only [runEvents] at h
      rcases List.mem_cons.mp h with h | h
      · simp [h]
      · exact List.mem_cons_of_mem _ (ih h)
    | cleanup =>
      simp only [runEvents] at h
      rcases List.mem_cons.mp h with h | h
      · simp [h]
      · exact List.mem_cons_of_mem _ (ih h)

/-! Claim C2: the polarity mapping. -/

/-- Claim C2: for every pair of logical state and polarity, the resolved
physical level is High for On under ActiveHigh, Low for On under ActiveLow,
and the complement of the On-level for Off; the mapping is a total function
computed identically by relay_control.py and relay_switch.py, and it agrees
with the resolve contract of the spec. -/
theorem resolve_mapping :
    (∀ (s : LogicalState) (p : Polarity),
      resolveSpec s p = controlResolve s p.isHigh ∧
      resolveSpec s p = switchResolve s p.isHigh) ∧
    (∀ (s : LogicalState) (ah : Bool), controlResolve s ah = switchResolve s ah) ∧
    resolveSpec .stOn .activeHigh = .high ∧
    resolveSpec .stOn .activeLow = .low ∧
    resolveSpec .stOff .activeHigh = .low ∧
    resolveSpec .stOff .activeLow = .high := by
  refine ⟨fun s p => ?_, fun s ah => ?_, rfl, rfl, rfl, rfl⟩
  · cases s <;> cases p <;> exact ⟨rfl, rfl⟩
  · cases s <;> cases ah <;> rfl

/-! Claim C9: Off-level is the complement of the On-level. -/

/-- Claim C9: for every polarity, the resolved level for Off is the
complement of the resolved level for On, both in the spec contract and in
the RELAY_ON and RELAY_OFF bindings of the two scripts. -/
theorem resolve_off_complement :
    (∀ p : Polarity, resolveSpec .stOff p = (resolveSpec .stOn p).complement) ∧
    (∀ ah : Bool, control_RELAY_OFF ah = (control_RELAY_ON ah).complement) ∧
    (∀ ah : Bool, switch_RELAY_OFF ah = (switch_RELAY_ON ah).complement) := by
  refine ⟨fun p => ?_, fun ah => ?_, fun ah => ?_⟩
  · cases p <;> rfl
  · cases ah <;> rfl
  · cases ah <;> rfl

/-! Claim C4: the zero-cycles loop never ends on its own. -/

/-- With cycles = 0, an external interrupt striking during any sleep does end
the loop of relay_control.py, within a computable amount of fuel. -/
theorem controlLoop_intr_terminates (ah : Bool) (onT offT : ℚ) :
    ∀ (j cc : Nat), ∃ fuel es,
      controlLoop ah onT offT 0 cc (some j) fuel = some (es, true) := by
  intro j
  induction j using Nat.strong_induction_on with
  | _ j ih =>
    match j with
    | 0 =>
      intro cc
      exact ⟨1, [.output relay_pin (control_RELAY_ON ah)], rfl⟩
    | 1 =>
      intro cc
      exact ⟨1, [.output relay_pin (control_RELAY_ON ah), .sleep onT,
        .output relay_pin (control_RELAY_OFF ah)], rfl⟩
    | j + 2 =>
      intro cc
      obtain ⟨fuel, es, hes⟩ := ih j (by omega) cc
      refine ⟨fuel + 1, cycleBody ah onT offT ++ es, ?_⟩
      have step : controlLoop ah onT offT 0 cc (some (j + 2)) (fuel + 1) =
          match controlLoop ah onT offT 0 cc (some j) fuel with
          | none => none
          | some (es2, b) => some (cycleBody ah onT offT ++ es2, b) := rfl
      rw [step, hes]

/-- Claim C4: with cycles = 0 the loop guard of relay_control.py holds after
every number of completed iterations; the loop, run without an external
interrupt, terminates within no amount of fuel, while an external interrupt
during any sleep does end it. -/
theorem zero_cycles_no_termination :
    (∀ cycle_count : Nat, loopCondition 0 cycle_count = true) ∧
    (∀ (ah : Bool) (onT offT : ℚ) (cycle_count fuel : Nat),
      controlLoop ah onT offT 0 cycle_count none fuel = none) ∧
    (∀ (ah : Bool) (onT offT : ℚ) (j : Nat), ∃ fuel es,
      controlLoop ah onT offT 0 0 (some j) fuel = some (es, true)) := by
  refine ⟨?_, ?_, ?_⟩
  · intro n
    simp [loopCondition]
  · intro ah onT offT cycle_count fuel
    induction fuel generalizing cycle_count with
    | zero => rfl
    | succ f ih =>
      simp [controlLoop, loopCondition, runEvents_none, ih]
  · intro ah onT offT j
    exact controlLoop_intr_terminates ah onT offT j 0

/-- A list of sleep events keeps nothing under takeWhile of non-sleeps. -/
theorem sleeps_takeWhile_nil {l : List GpioEvent}
    (h : l.all GpioEvent.isSleep = true) :
    l.takeWhile (fun e => !e.isSleep) = [] := by
  cases l with
  | nil => rfl
  | cons e rest =>
    simp only [List.all_cons, Bool.and_eq_true] at h
    cases e <;> simp_all [GpioEvent.isSleep, List.takeWhile]

/-- A list of sleep events contains no output event. -/
theorem sleeps_countP_output_zero {l : List GpioEvent}
    (h : l.all GpioEvent.isSleep = true) :
    l.countP GpioEvent.isOutput = 0 := by
  induction l with
  | nil => rfl
  | cons e rest ih =>
    simp only [List.all_cons, Bool.and_eq_true] at h
    cases e <;> simp_all [GpioEvent.isSleep, GpioEvent.isOutput, List.countP_cons]

/-- A list of sleep events contains no cleanup event. -/
theorem sleeps_count_cleanup_zero {l : List GpioEvent}
    (h : l.all GpioEvent.isSleep = true) :
    l.count GpioEvent.cleanup = 0 := by
  induction l with
  | nil => rfl
  | cons e rest ih =>
    simp only [List.all_cons, Bool.and_eq_true] at h
    cases e <;> simp_all [GpioEvent.isSleep, List.count_cons]

/-- A list of sleep events carries no output level. -/
theorem sleeps_findSome?_none {l : List GpioEvent}
    (h : l.all GpioEvent.isSleep = true) :
    l.findSome? outputLevel? = none := by
  induction l with
  | nil => rfl
  | cons e rest ih =>
    simp only [List.all_cons, Bool.and_eq_true] at h
    cases e <;> simp_all [GpioEvent.isSleep, outputLevel?, List.findSome?_cons]

/-- The events a single interruptible sleep emits are sleeps. -/
theorem runEvents_single_sleep_all (t : ℚ) (intr : Option Nat) :
    ((runEvents [.sleep t] intr).1).all GpioEvent.isSleep = true := by
  match intr with
  | none => rfl
  | some 0 => rfl
  | some (j + 1) => rfl

/-- The indefinite hold loop of relay_switch.py emits only sleep events. -/
theorem switchHoldLoop_all_sleeps {intr : Option Nat} {fuel : Nat}
    {es : List GpioEvent} {b : Bool}
    (h : switchHoldLoop intr fuel = some (es, b)) :
    es.all GpioEvent.isSleep = true := by
  induction fuel generalizing intr es b with
  | zero => cases h
  | succ f ih =>
    match intr with
    | some 0 =>
      simp only [switchHoldLoop] at h
      cases h
      rfl
    | some (j + 1) =>
      simp only [switchHoldLoop] at h
      cases hr : switchHoldLoop (some j) f with
      | none => rw [hr] at h; cases h
      | some p =>
        rw [hr] at h
        cases h
        simpa [GpioEvent.isSleep] using ih hr
    | none =>
      simp only [switchHoldLoop] at h
      cases hr : switchHoldLoop none f with
      | none => rw [hr] at h; cases h
      | some p =>
        rw [hr] at h
        cases h
        simpa [GpioEvent.isSleep] using ih hr

/-- The try block of relay_switch.py always emits the single resolved write
first and after it nothing but sleeps. -/
theorem switchTry_char {a : SwitchArgs} {intr : Option Nat} {fuel : Nat}
    {es : List GpioEvent} {b : Bool}
    (h : switchTry a intr fuel = some (es, b)) :
    ∃ rest, es = .output relay_pin (switchLevel a) :: rest ∧
      rest.all GpioEvent.isSleep = true := by
  unfold switchTry at h
  by_cases h1 : a.hold_time > 0
  · rw [if_pos h1] at h
    cases h
    exact ⟨_, rfl, runEvents_single_sleep_all a.hold_time intr⟩
  · rw [if_neg h1] at h
    by_cases h2 : a.hold_time = 0
    · rw [if_pos h2] at h
      cases hr : switchHoldLoop intr fuel with
      | none => rw [hr] at h; cases h
      | some p =>
        rw [hr] at h
        cases h
        exact ⟨_, rfl, switchHoldLoop_all_sleeps hr⟩
    · rw [if_neg h2] at h
      cases h
      exact ⟨[], rfl, rfl⟩

/-! Claim C10: negative hold time means no blocking at all. -/

/-- Claim C10: with a negative hold time, relay_switch.py takes neither
blocking branch: the negative value never reaches the sleep primitive, the
trace holds no sleep event, and after the single state write the run goes
straight to the finally block and exits with status 0. -/
theorem negative_hold_no_sleep (a : SwitchArgs) (intr : Option Nat) (fuel : Nat)
    (h : a.hold_time < 0) :
    switchRun a intr fuel =
      some ([.setModeBoard, .setupOut relay_pin none,
             .output relay_pin (switchLevel a), .cleanup], 0) ∧
    ([GpioEvent.setModeBoard, .setupOut relay_pin none,
      .output relay_pin (switchLevel a), .cleanup].countP GpioEvent.isSleep) = 0 := by
  have h1 : ¬ a.hold_time > 0 := fun h2 => absurd (h.trans h2) (lt_irrefl _)
  have h2 : a.hold_time ≠ 0 := ne_of_lt h
  constructor
  · simp [switchRun, switchTry, h1, h2]
  · simp [List.countP_cons, GpioEvent.isSleep]

/-- Witness for claim C10 at the concrete input state on, active high,
hold time minus one. -/
theorem negative_hold_no_sleep_witness :
    switchRun ⟨true, true, -1⟩ none 0 =
      some ([.setModeBoard, .setupOut relay_pin none,
             .output relay_pin (switchLevel ⟨true, true, -1⟩), .cleanup], 0) ∧
    ([GpioEvent.setModeBoard, .setupOut relay_pin none,
      .output relay_pin (switchLevel ⟨true, true, -1⟩), .cleanup].countP
        GpioEvent.isSleep) = 0 :=
  negative_hold_no_sleep ⟨true, true, -1⟩ none 0 (by norm_num)

/-! Claim C6: exactly one write before any blocking. -/

/-- Claim C6: for every requested state, polarity and hold time, the try
block of relay_switch.py performs exactly one pin write before any blocking,
namely the single write of the resolved level, and the whole block performs
no other write. -/
theorem one_write_before_blocking (a : SwitchArgs) (intr : Option Nat)
    (fuel : Nat) (es : List GpioEvent) (b : Bool)
    (h : switchTry a intr fuel = some (es, b)) :
    es.takeWhile (fun e => !e.isSleep) = [.output relay_pin (switchLevel a)] ∧
    es.countP GpioEvent.isOutput = 1 := by
  obtain ⟨rest, hes, hsl⟩ := switchTry_char h
  subst hes
  constructor
  · rw [List.takeWhile_cons_of_pos (by rfl), sleeps_takeWhile_nil hsl]
  · simp [List.countP_cons, GpioEvent.isOutput, sleeps_countP_output_zero hsl]

/-- Witness for claim C6 at the concrete input state on, active high, hold
time three, no interrupt. -/
theorem one_write_before_blocking_witness :
    ([GpioEvent.output relay_pin Level.high,
      GpioEvent.sleep 3].takeWhile (fun e => !e.isSleep) =
        [.output relay_pin (switchLevel ⟨true, true, 3⟩)]) ∧
    ([GpioEvent.output relay_pin Level.high,
      GpioEvent.sleep 3].countP GpioEvent.isOutput = 1) :=
  one_write_before_blocking ⟨true, true, 3⟩ none 0
    [GpioEvent.output relay_pin Level.high, GpioEvent.sleep 3] false (by decide)

/-- With a positive cycle target and no interrupt, the loop of
relay_control.py performs exactly the remaining number of iteration bodies
and then stops. -/
theorem controlLoop_run_pos (ah : Bool) (onT offT : ℚ) :
    ∀ (r cycle_count : Nat) (cycles : Int), cycles = (cycle_count : Int) + r →
    0 < cycles → ∀ fuel, r < fuel →
    controlLoop ah onT offT cycles cycle_count none fuel =
      some ((List.replicate r (cycleBody ah onT offT)).flatten, false) := by
  intro r
  induction r with
  | zero =>
    intro cc cycles hc hpos fuel hf
    match fuel, hf with
    | f + 1, _ =>
      have hcond : loopCondition cycles cc = false := by
        simp only [loopCondition, Bool.or_eq_false_iff, beq_eq_false_iff_ne,
          decide_eq_false_iff_not]
        omega
      simp [controlLoop, hcond]
  | succ r ih =>
    intro cc cycles hc hpos fuel hf
    match fuel, hf with
    | f + 1, hf =>
      have hcond : loopCondition cycles cc = true := by
        simp only [loopCondition, Bool.or_eq_true, beq_iff_eq,
          decide_eq_true_eq]
        right
        omega
      have hrec := ih (cc + 1) cycles (by push_cast; omega) hpos f (by omega)
      simp only [controlLoop, hcond, if_true, runEvents_none, if_pos hpos, hrec,
        List.replicate_succ, List.flatten_cons]

/-! Claim C3: a positive cycle count runs exactly N bodies. -/

/-- Claim C3: for every cycle target N greater than zero and every polarity,
an uninterrupted run of relay_control.py performs exactly N repetitions of
the sequence write On-level, sleep on_time, write Off-level, sleep off_time,
in that order, and then terminates through the finally block with exit
status 0. -/
theorem cycle_driver_exact (a : ControlArgs) (N : Nat) (hN : 0 < N)
    (hc : a.cycles = (N : Int)) (fuel : Nat) (hf : N < fuel) :
    controlRun a none fuel =
      some (controlSetupEvents a ++
        (List.replicate N (cycleBody a.active_high a.on_time a.off_time)).flatten ++
        [.output relay_pin (control_RELAY_OFF a.active_high), .cleanup], 0) := by
  unfold controlRun
  rw [hc, controlLoop_run_pos a.active_high a.on_time a.off_time N 0 (N : Int)
    (by push_cast; omega) (by exact_mod_cast hN) fuel hf]

/-- Witness for claim C3 at the concrete input on_time 1, off_time 2,
cycles 3, initial state off, active high, fuel 4. -/
theorem cycle_driver_exact_witness :
    controlRun ⟨1, 2, 3, false, true⟩ none 4 =
      some (controlSetupEvents ⟨1, 2, 3, false, true⟩ ++
        (List.replicate 3 (cycleBody true 1 2)).flatten ++
        [.output relay_pin (control_RELAY_OFF true), .cleanup], 0) :=
  cycle_driver_exact ⟨1, 2, 3, false, true⟩ 3 (by decide) (by norm_num) 4
    (by decide)

/-- An unknown flag anywhere on the command line makes the relay_switch.py
argument validation reject, whatever the accumulated state. -/
theorem parseSwitch_unknown_none {argv : List SwTok} {s : String}
    (h : SwTok.unknownFlag s ∈ argv) :
    ∀ st ah ht, parseSwitch argv st ah ht = none := by
  induction argv with
  | nil => cases h
  | cons t rest ih =>
    intro st ah ht
    rcases List.mem_cons.mp h with hm | hm
    · subst hm
      rfl
    · cases t with
      | positional s0 =>
        cases st with
        | some _ => rfl
        | none =>
          by_cases hv : validState s0
          · simp [parseSwitch, hv, ih hm]
          · simp [parseSwitch, hv]
      | flagActiveHigh => exact ih hm st true ht
      | flagActiveLow => exact ih hm st false ht
      | flagHoldTime v => exact ih hm st ah v
      | unknownFlag s0 => rfl

/-- A positional state value outside the on and off choices makes the
relay_switch.py argument validation reject. -/
theorem parseSwitch_badState_none {argv : List SwTok} {s : String}
    (h : SwTok.positional s ∈ argv) (hv : validState s = false) :
    ∀ st ah ht, parseSwitch argv st ah ht = none := by
  induction argv with
  | nil => cases h
  | cons t rest ih =>
    intro st ah ht
    rcases List.mem_cons.mp h with hm | hm
    · subst hm
      cases st with
      | some _ => rfl
      | none => simp [parseSwitch, hv]
    · cases t with
      | positional s0 =>
        cases st with
        | some _ => rfl
        | none =>
          by_cases hv0 : validState s0
          · simp [parseSwitch, hv0, ih hm]
          · simp [parseSwitch, hv0]
      | flagActiveHigh => exact ih hm st true ht
      | flagActiveLow => exact ih hm st false ht
      | flagHoldTime v => exact ih hm st ah v
      | unknownFlag s0 => rfl

/-- An unknown flag anywhere on the command line makes the relay_control.py
argument validation reject, whatever the accumulated record. -/
theorem parseControl_unknown_none {argv : List CtlTok} {s : String}
    (h : CtlTok.unknownFlag s ∈ argv) :
    ∀ a, parseControl argv a = none := by
  induction argv with
  | nil => cases h
  | cons t rest ih =>
    intro a
    rcases List.mem_cons.mp h with hm | hm
    · subst hm
      rfl
    · cases t with
      | flagOnTime v => exact ih hm _
      | flagOffTime v => exact ih hm _
      | flagCycles v => exact ih hm _
      | flagInitialState s0 =>
        by_cases hv : validState s0
        · simp [parseControl, hv, ih hm]
        · simp [parseControl, hv]
      | flagActiveHigh => exact ih hm _
      | flagActiveLow => exact ih hm _
      | unknownFlag s0 => rfl
      | positional s0 => rfl

/-- An initial-state value outside the on and off choices makes the
relay_control.py argument validation reject. -/
theorem parseControl_badState_none {argv : List CtlTok} {s : String}
    (h : CtlTok.flagInitialState s ∈ argv) (hv : validState s = false) :
    ∀ a, parseControl argv a = none := by
  induction argv with
  | nil => cases h
  | cons t rest ih =>
    intro a
    rcases List.mem_cons.mp h with hm | hm
    · subst hm
      simp [parseControl, hv]
    · cases t with
      | flagOnTime v => exact ih hm _
      | flagOffTime v => exact ih hm _
      | flagCycles v => exact ih hm _
      | flagInitialState s0 =>
        by_cases hv0 : validState s0
        · simp [parseControl, hv0, ih hm]
        · simp [parseControl, hv0]
      | flagActiveHigh => exact ih hm _
      | flagActiveLow => exact ih hm _
      | unknownFlag s0 => rfl
      | positional s0 => rfl

/-! Claim C7: invalid arguments are rejected before any hardware access. -/

/-- Claim C7: an invalid state value or an unknown flag makes either script
reject during argument validation with the usage exit status 2 and an empty
event trace, so no setmode call, no pin configuration and no pin write has
happened on this path. -/
theorem invalid_args_no_hardware :
    (∀ (argv : List SwTok) (intr : Option Nat) (fuel : Nat),
      ((∃ s, SwTok.unknownFlag s ∈ argv) ∨
       (∃ s, SwTok.positional s ∈ argv ∧ validState s = false)) →
      switchProcess argv intr fuel = some ([], 2)) ∧
    (∀ (argv : List CtlTok) (intr : Option Nat) (fuel : Nat),
      ((∃ s, CtlTok.unknownFlag s ∈ argv) ∨
       (∃ s, CtlTok.flagInitialState s ∈ argv ∧ validState s = false)) →
      controlProcess argv intr fuel = some ([], 2)) := by
  constructor
  · intro argv intr fuel h
    have hp : parseSwitch argv none true 0 = none := by
      rcases h with ⟨s, hs⟩ | ⟨s, hs, hv⟩
      · exact parseSwitch_unknown_none hs none true 0
      · exact parseSwitch_badState_none hs hv none true 0
    simp [switchProcess, hp]
  · intro argv intr fuel h
    have hp : parseControl argv controlDefaults = none := by
      rcases h with ⟨s, hs⟩ | ⟨s, hs, hv⟩
      · exact parseControl_unknown_none hs controlDefaults
      · exact parseControl_badState_none hs hv controlDefaults
    simp [controlProcess, hp]

/-- Witness for claim C7: a bad positional state for relay_switch.py and an
unknown flag for relay_control.py are both rejected with status 2 and no
events. -/
theorem invalid_args_no_hardware_witness :
    switchProcess [SwTok.positional "oops"] none 5 = some ([], 2) ∧
    controlProcess [CtlTok.unknownFlag "--bogus"] none 5 = some ([], 2) :=
  ⟨invalid_args_no_hardware.1 [SwTok.positional "oops"] none 5
    (Or.inr ⟨"oops", List.mem_singleton.mpr rfl, by decide⟩),
   invalid_args_no_hardware.2 [CtlTok.unknownFlag "--bogus"] none 5
    (Or.inl ⟨"--bogus", List.mem_singleton.mpr rfl⟩)⟩

/-- The cycle loop of relay_control.py never emits a cleanup event; cleanup
happens only in the finally block. -/
theorem controlLoop_not_mem_cleanup {ah : Bool} {onT offT : ℚ} {cycles : Int}
    {cc : Nat} {intr : Option Nat} {fuel : Nat} {es : List GpioEvent} {b : Bool}
    (h : controlLoop ah onT offT cycles cc intr fuel = some (es, b)) :
    GpioEvent.cleanup ∉ es := by
  induction fuel generalizing cc intr es b with
  | zero => cases h
  | succ f ih =>
    by_cases hcond : loopCondition cycles cc
    · simp only [controlLoop, hcond, if_true] at h
      rcases hre : runEvents (cycleBody ah onT offT) intr with ⟨es1, r⟩
      rw [hre] at h
      cases r with
      | none =>
        cases h
        intro hmem
        have := runEvents_mem (by rw [hre]; exact hmem)
        simp [cycleBody] at this
      | some intr2 =>
        dsimp only at h
        cases hrec : controlLoop ah onT offT cycles
            (if cycles > 0 then cc + 1 else cc) intr2 f with
        | none => rw [hrec] at h; cases h
        | some p =>
          obtain ⟨es2, b2⟩ := p
          rw [hrec] at h
          cases h
          intro hmem
          rcases List.mem_append.mp hmem with hmem | hmem
          · have := runEvents_mem (by rw [hre]; exact hmem)
            simp [cycleBody] at this
          · exact ih hrec hmem
    · simp only [controlLoop, hcond, if_false] at h
      cases h
      exact List.not_mem_nil _

/-- A trace ending in an Off write followed by cleanup records the Off level
as its last pin write. -/
theorem lastOutputLevel_snoc_off (l : List GpioEvent) (p : Nat) (v : Level) :
    lastOutputLevel (l ++ [.output p v, .cleanup]) = some v := by
  simp [lastOutputLevel, List.reverse_append, List.findSome?_cons, outputLevel?]

/-- A trace ending in cleanup has cleanup as its last event. -/
theorem getLast_cleanup (l : List GpioEvent) :
    (l ++ [GpioEvent.cleanup]).getLast? = some GpioEvent.cleanup :=
  List.getLast?_concat l

/-- Every terminating run of relay_control.py exits 0 and splits into the
setup events, the loop events and the finally events. -/
theorem controlRun_char {a : ControlArgs} {intr : Option Nat} {fuel : Nat}
    {es : List GpioEvent} {code : Nat}
    (h : controlRun a intr fuel = some (es, code)) :
    code = 0 ∧ ∃ esL b,
      controlLoop a.active_high a.on_time a.off_time a.cycles 0 intr fuel =
        some (esL, b) ∧
      es = controlSetupEvents a ++ esL ++
        [.output relay_pin (control_RELAY_OFF a.active_high), .cleanup] := by
  unfold controlRun at h
  cases hL : controlLoop a.active_high a.on_time a.off_time a.cycles 0 intr fuel with
  | none => rw [hL] at h; cases h
  | some p =>
    obtain ⟨esL, b⟩ := p
    rw [hL] at h
    cases h
    exact ⟨rfl, esL, b, rfl, rfl⟩

/-- Every terminating run of relay_control.py exits 0, runs cleanup exactly
once as its final action, and its last recorded pin write is the Off level
of the configured polarity. -/
theorem controlRun_trace_props {a : ControlArgs} {intr : Option Nat}
    {fuel : Nat} {es : List GpioEvent} {code : Nat}
    (h : controlRun a intr fuel = some (es, code)) :
    code = 0 ∧ es.count GpioEvent.cleanup = 1 ∧
    es.getLast? = some GpioEvent.cleanup ∧
    lastOutputLevel es = some (control_RELAY_OFF a.active_high) := by
  obtain ⟨hcode, esL, b, hL, hes⟩ := controlRun_char h
  subst hes
  refine ⟨hcode, ?_, ?_, ?_⟩
  · have h0 : esL.count GpioEvent.cleanup = 0 :=
      List.count_eq_zero.mpr (controlLoop_not_mem_cleanup hL)
    simp [List.count_append, List.count_cons, controlSetupEvents, h0]
  · have : controlSetupEvents a ++ esL ++
        [GpioEvent.output relay_pin (control_RELAY_OFF a.active_high),
         GpioEvent.cleanup] =
      (controlSetupEvents a ++ esL ++
        [GpioEvent.output relay_pin (control_RELAY_OFF a.active_high)]) ++
        [GpioEvent.cleanup] := by simp
    rw [this, getLast_cleanup]
  · rw [List.append_assoc]
    rw [← List.append_assoc]
    exact lastOutputLevel_snoc_off _ relay_pin (control_RELAY_OFF a.active_high)

/-- Every terminating run of relay_switch.py exits 0 and its trace is the
setup events, the single resolved write, some sleeps, then cleanup. -/
theorem switchRun_char {a : SwitchArgs} {intr : Option Nat} {fuel : Nat}
    {es : List GpioEvent} {code : Nat}
    (h : switchRun a intr fuel = some (es, code)) :
    code = 0 ∧ ∃ rest,
      es = [GpioEvent.setModeBoard, .setupOut relay_pin none,
            .output relay_pin (switchLevel a)] ++ rest ++ [.cleanup] ∧
      rest.all GpioEvent.isSleep = true := by
  unfold switchRun at h
  cases ht : switchTry a intr fuel with
  | none => rw [ht] at h; cases h
  | some p =>
    obtain ⟨esT, b⟩ := p
    rw [ht] at h
    cases h
    obtain ⟨rest, hes, hsl⟩ := switchTry_char ht
    subst hes
    exact ⟨rfl, rest, by simp, hsl⟩

/-- Every terminating run of relay_switch.py exits 0, runs cleanup exactly
once as its final action, and its last recorded pin write is the resolved
level of the requested state (the finally block writes nothing). -/
theorem switchRun_trace_props {a : SwitchArgs} {intr : Option Nat}
    {fuel : Nat} {es : List GpioEvent} {code : Nat}
    (h : switchRun a intr fuel = some (es, code)) :
    code = 0 ∧ es.count GpioEvent.cleanup = 1 ∧
    es.getLast? = some GpioEvent.cleanup ∧
    lastOutputLevel es = some (switchLevel a) := by
  obtain ⟨hcode, rest, hes, hsl⟩ := switchRun_char h
  subst hes
  refine ⟨hcode, ?_, ?_, ?_⟩
  · simp [List.count_append, List.count_cons, sleeps_count_cleanup_zero hsl]
  · exact getLast_cleanup _
  · have hrev : (rest.reverse).all GpioEvent.isSleep = true := by
      rw [List.all_reverse]; exact hsl
    simp [lastOutputLevel, List.reverse_append, List.findSome?_append,
      List.findSome?_cons, outputLevel?, sleeps_findSome?_none hrev]

/-- Without an external interrupt the indefinite hold loop of
relay_switch.py never returns, whatever the fuel. -/
theorem switchHoldLoop_none (fuel : Nat) : switchHoldLoop none fuel = none := by
  induction fuel with
  | zero => rfl
  | succ f ih => simp [switchHoldLoop, ih]

/-- An interrupt striking during the (j+1)-st sleep ends the indefinite hold
loop after exactly j completed one-second sleeps. -/
theorem switchHoldLoop_intr (j : Nat) :
    switchHoldLoop (some j) (j + 1) =
      some (List.replicate j (GpioEvent.sleep 1), true) := by
  induction j with
  | zero => rfl
  | succ j ih =>
    have step : switchHoldLoop (some (j + 1)) (j + 1 + 1) =
        match switchHoldLoop (some j) (j + 1) with
        | none => none
        | some (es, b) => some (GpioEvent.sleep 1 :: es, b) := rfl
    rw [step, ih]
    simp [List.replicate_succ]

/-- A leading output event of a block is always emitted, whatever the
interrupt budget. -/
theorem runEvents_cons_output (p : Nat) (l : Level) (rest : List GpioEvent)
    (intr : Option Nat) :
    runEvents (.output p l :: rest) intr =
      (.output p l :: (runEvents rest intr).1, (runEvents rest intr).2) := by
  cases intr with
  | none => rfl
  | some j => cases j <;> rfl

/-- Whenever the loop guard lets the cycle loop of relay_control.py start an
iteration, the first event the loop emits is the On-level write, whatever
the initial state, the interrupt budget or the fuel. -/
theorem controlLoop_entered_head {ah : Bool} {onT offT : ℚ} {cycles : Int}
    {intr : Option Nat} {fuel : Nat} {es : List GpioEvent} {b : Bool}
    (h : controlLoop ah onT offT cycles 0 intr fuel = some (es, b))
    (hcond : loopCondition cycles 0 = true) :
    ∃ rest, es = .output relay_pin (control_RELAY_ON ah) :: rest := by
  match fuel with
  | 0 => cases h
  | f + 1 =>
    simp only [controlLoop, hcond, if_true, cycleBody] at h
    rw [runEvents_cons_output] at h
    rcases hre : runEvents [GpioEvent.sleep onT,
        .output relay_pin (control_RELAY_OFF ah), .sleep offT] intr with ⟨es1, r⟩
    rw [hre] at h
    cases r with
    | none =>
      cases h
      exact ⟨es1, rfl⟩
    | some intr2 =>
      dsimp only at h
      cases hrec : controlLoop ah onT offT cycles
          (if cycles > 0 then 0 + 1 else 0) intr2 f with
      | none => rw [hrec] at h; cases h
      | some p =>
        obtain ⟨es2, b2⟩ := p
        rw [hrec] at h
        cases h
        exact ⟨es1 ++ es2, rfl⟩

/-! Claim C5: a user interrupt during any sleep means cleanup and exit 0. -/

/-- Claim C5: in either script a user interrupt arriving during any blocking
sleep aborts the sleep, routes the run through the cleanup handler exactly
once as the final action, and the process exits with status 0; in
particular the otherwise indefinite hold of relay_switch.py with hold time
zero never ends without the interrupt and always ends with it. -/
theorem interrupt_clean_exit :
    (∀ (a : ControlArgs) (j fuel : Nat) (es : List GpioEvent) (code : Nat),
      controlRun a (some j) fuel = some (es, code) →
      code = 0 ∧ es.count GpioEvent.cleanup = 1 ∧
      es.getLast? = some GpioEvent.cleanup) ∧
    (∀ (a : SwitchArgs) (j fuel : Nat) (es : List GpioEvent) (code : Nat),
      switchRun a (some j) fuel = some (es, code) →
      code = 0 ∧ es.count GpioEvent.cleanup = 1 ∧
      es.getLast? = some GpioEvent.cleanup) ∧
    (∀ (a : SwitchArgs) (j : Nat), a.hold_time = 0 →
      (∀ fuel, switchRun a none fuel = none) ∧
      switchRun a (some j) (j + 1) =
        some ([GpioEvent.setModeBoard, .setupOut relay_pin none,
               .output relay_pin (switchLevel a)] ++
              List.replicate j (GpioEvent.sleep 1) ++ [.cleanup], 0)) ∧
    (∀ (a : ControlArgs) (j : Nat), a.cycles = 0 →
      ∃ fuel es, controlRun a (some j) fuel = some (es, 0)) := by
  refine ⟨?_, ?_, ?_, ?_⟩
  · intro a j fuel es code h
    obtain ⟨hc, h1, h2, _⟩ := controlRun_trace_props h
    exact ⟨hc, h1, h2⟩
  · intro a j fuel es code h
    obtain ⟨hc, h1, h2, _⟩ := switchRun_trace_props h
    exact ⟨hc, h1, h2⟩
  · intro a j h0
    have hng : ¬ a.hold_time > 0 := by rw [h0]; exact lt_irrefl 0
    constructor
    · intro fuel
      simp [switchRun, switchTry, hng, h0, switchHoldLoop_none]
    · simp [switchRun, switchTry, hng, h0, switchHoldLoop_intr j]
  · intro a j h0
    obtain ⟨fuel, es, hes⟩ :=
      controlLoop_intr_terminates a.active_high a.on_time a.off_time j 0
    refine ⟨fuel, controlSetupEvents a ++ es ++
      [.output relay_pin (control_RELAY_OFF a.active_high), .cleanup], ?_⟩
    unfold controlRun
    rw [h0, hes]

/-- Witness for claim C5 at the one-shot script with hold time zero,
interrupted during its second sleep, with fuel two. -/
theorem interrupt_clean_exit_witness :
    (0 : Nat) = 0 ∧
    ([GpioEvent.setModeBoard, .setupOut relay_pin none,
      .output relay_pin Level.high, .sleep 1,
      .cleanup].count GpioEvent.cleanup = 1) ∧
    ([GpioEvent.setModeBoard, .setupOut relay_pin none,
      .output relay_pin Level.high, .sleep 1,
      .cleanup].getLast? = some GpioEvent.cleanup) :=
  interrupt_clean_exit.2.1 ⟨true, true, 0⟩ 1 2
    [GpioEvent.setModeBoard, .setupOut relay_pin none,
     .output relay_pin Level.high, .sleep 1, .cleanup] 0 (by decide)

/-! Claim C1: corrected.  The cycle driver's cleanup writes Off before
releasing, but the one-shot driver's finally block only releases: its final
recorded write is the resolved level of the requested state, not always the
Off level. -/

/-- Counterexample to claim C1 as stated: the one-shot run with state on,
active high, hold time 3 terminates normally with exit 0, yet the final pin
write recorded before the pin is released is High, while the Off level of
this polarity is Low; the one-shot cleanup does not write the Off level. -/
theorem oneshot_cleanup_no_off_write :
    (switchRun ⟨true, true, 3⟩ none 1).map
        (fun out => (lastOutputLevel out.1, out.2)) =
      some (some Level.high, 0) ∧
    switch_RELAY_OFF true = Level.low ∧ Level.high ≠ Level.low := by
  refine ⟨?_, rfl, by decide⟩
  rfl

/-- Amended claim C1: on every termination path of either script the cleanup
handler runs exactly once, as the final action before the pin is released;
in the cycle driver the final recorded pin write is the Off level for the
configured polarity, while in the one-shot driver the finally block writes
nothing, so the final recorded pin write is the resolved level of the
requested state. -/
theorem cleanup_final_write :
    (∀ (a : ControlArgs) (intr : Option Nat) (fuel : Nat)
      (es : List GpioEvent) (code : Nat),
      controlRun a intr fuel = some (es, code) →
      es.count GpioEvent.cleanup = 1 ∧
      es.getLast? = some GpioEvent.cleanup ∧
      lastOutputLevel es = some (control_RELAY_OFF a.active_high)) ∧
    (∀ (a : SwitchArgs) (intr : Option Nat) (fuel : Nat)
      (es : List GpioEvent) (code : Nat),
      switchRun a intr fuel = some (es, code) →
      es.count GpioEvent.cleanup = 1 ∧
      es.getLast? = some GpioEvent.cleanup ∧
      lastOutputLevel es = some (switchLevel a)) := by
  constructor
  · intro a intr fuel es code h
    obtain ⟨_, h1, h2, h3⟩ := controlRun_trace_props h
    exact ⟨h1, h2, h3⟩
  · intro a intr fuel es code h
    obtain ⟨_, h1, h2, h3⟩ := switchRun_trace_props h
    exact ⟨h1, h2, h3⟩

/-- Witness for the amended claim C1 at the one-shot run with state on,
active high, hold time 3, no interrupt. -/
theorem cleanup_final_write_witness :
    ([GpioEvent.setModeBoard, .setupOut relay_pin none,
      .output relay_pin Level.high, .sleep 3,
      .cleanup].count GpioEvent.cleanup = 1) ∧
    ([GpioEvent.setModeBoard, .setupOut relay_pin none,
      .output relay_pin Level.high, .sleep 3,
      .cleanup].getLast? = some GpioEvent.cleanup) ∧
    lastOutputLevel [GpioEvent.setModeBoard, .setupOut relay_pin none,
      .output relay_pin Level.high, .sleep 3, .cleanup] =
      some (switchLevel ⟨true, true, 3⟩) :=
  cleanup_final_write.2 ⟨true, true, 3⟩ none 1
    [GpioEvent.setModeBoard, .setupOut relay_pin none,
     .output relay_pin Level.high, .sleep 3, .cleanup] 0 (by rfl)

/-! Claim C8: the initial state only sets the configured initial level. -/

/-- Claim C8: the initial-state argument of relay_control.py affects only the
initial level passed to the pin setup call; the rest of the trace and the
exit code are unchanged by it, and whenever the loop is entered its first
write is always the On level, whatever the initial state. -/
theorem initial_state_only_setup :
    (∀ (a : ControlArgs) (intr : Option Nat) (fuel : Nat)
      (es : List GpioEvent) (code : Nat),
      controlRun a intr fuel = some (es, code) →
      es.head? = some GpioEvent.setModeBoard ∧
      es[1]? = some (GpioEvent.setupOut relay_pin
        (some (if a.initialOn then control_RELAY_ON a.active_high
               else control_RELAY_OFF a.active_high)))) ∧
    (∀ (onT offT : ℚ) (cy : Int) (ah : Bool) (intr : Option Nat) (fuel : Nat),
      (controlRun ⟨onT, offT, cy, true, ah⟩ intr fuel).map
          (fun o => (o.1.drop 2, o.2)) =
        (controlRun ⟨onT, offT, cy, false, ah⟩ intr fuel).map
          (fun o => (o.1.drop 2, o.2))) ∧
    (∀ (a : ControlArgs) (intr : Option Nat) (fuel : Nat)
      (es : List GpioEvent) (code : Nat),
      controlRun a intr fuel = some (es, code) →
      loopCondition a.cycles 0 = true →
      firstOutputLevel es = some (control_RELAY_ON a.active_high)) := by
  refine ⟨?_, ?_, ?_⟩
  · intro a intr fuel es code h
    obtain ⟨_, esL, b, hL, hes⟩ := controlRun_char h
    subst hes
    simp [controlSetupEvents]
  · intro onT offT cy ah intr fuel
    unfold controlRun
    cases hL : controlLoop ah onT offT cy 0 intr fuel with
    | none => rfl
    | some p =>
      obtain ⟨esL, b⟩ := p
      simp [controlSetupEvents]
  · intro a intr fuel es code h hcond
    obtain ⟨_, esL, b, hL, hes⟩ := controlRun_char h
    subst hes
    obtain ⟨rest, hesL⟩ := controlLoop_entered_head hL hcond
    subst hesL
    simp [firstOutputLevel, controlSetupEvents, List.findSome?_cons,
      outputLevel?]

/-- Witness for claim C8 at a concrete interrupted zero-cycles run of
relay_control.py with initial state on, active high. -/
theorem initial_state_only_setup_witness :
    (([GpioEvent.setModeBoard,
       .setupOut relay_pin (some Level.high),
       .output relay_pin Level.high, .output relay_pin Level.low,
       .cleanup] : List GpioEvent).head? = some GpioEvent.setModeBoard ∧
     ([GpioEvent.setModeBoard,
       .setupOut relay_pin (some Level.high),
       .output relay_pin Level.high, .output relay_pin Level.low,
       .cleanup] : List GpioEvent)[1]? = some (GpioEvent.setupOut relay_pin
        (some (if (⟨1, 1, 0, true, true⟩ : ControlArgs).initialOn
               then control_RELAY_ON true else control_RELAY_OFF true)))) ∧
    (loopCondition (0 : Int) 0 = true →
     firstOutputLevel [GpioEvent.setModeBoard,
       .setupOut relay_pin (some Level.high),
       .output relay_pin Level.high, .output relay_pin Level.low,
       .cleanup] = some (control_RELAY_ON true)) :=
  ⟨initial_state_only_setup.1 ⟨1, 1, 0, true, true⟩ (some 0) 1
    [GpioEvent.setModeBoard, .setupOut relay_pin (some Level.high),
     .output relay_pin Level.high, .output relay_pin Level.low,
     .cleanup] 0 (by rfl),
   fun _ => (initial_state_only_setup.2.2 ⟨1, 1, 0, true, true⟩ (some 0) 1
    [GpioEvent.setModeBoard, .setupOut relay_pin (some Level.high),
     .output relay_pin Level.high, .output relay_pin Level.low,
     .cleanup] 0 (by rfl) (by rfl))⟩

end RelayModules
